import Mathlib

/-!
Verification of the swf-fastmon-agent sampling-and-registration pipeline.

The development embeds the Python sources `swf_fastmon_agent/fastmon_utils.py`
and `swf_fastmon_agent/main.py` shallowly in Lean:

* Python dict values are modelled by the inductive type `PyVal`; message and
  record dictionaries are association lists (`PyDict`).
* Python floats appearing in configuration (selection fractions, size
  fractions) are modelled as rationals, and Python's `int(...)` truncation as
  `pyInt`.
* The process-wide random source (`random.sample`, `random.gauss`) is modelled
  by explicit tapes: an index tape `Nat → Nat` for sampling and a jitter tape
  `Nat → ℚ` for Gaussian sizes.
* The remote catalog and the message broker are black boxes: each endpoint
  family is an explicit stream of `Except`-valued responses in `Env`, and the
  requests actually issued are accumulated in a trace (`ApiCall` list) inside
  `AgentState`, together with the broadcast messages and log counters.
* `datetime.now().isoformat()` is modelled by an environment-supplied string
  `Env.now` (the model does not track the progression of wall-clock time).
* MD5 is implemented concretely (RFC 1321) on byte lists so that the checksum
  claims are about the actual digest of the file content.
-/

/-- A Python value as it appears in the agent's dictionaries: `None`, strings,
integers, rationals (floats), booleans, lists and dictionaries. -/
inductive PyVal where
  | none : PyVal
  | str : String → PyVal
  | int : Int → PyVal
  | rat : ℚ → PyVal
  | bool : Bool → PyVal
  | list : List PyVal → PyVal
  | dict : List (String × PyVal) → PyVal

/-- A Python dictionary with string keys, as an association list. -/
abbrev PyDict := List (String × PyVal)

/-- `d.get(k)`: the value stored under `k`, or `None` when the key is absent. -/
def dget (d : PyDict) (k : String) : PyVal :=
  match d.find? (fun p => p.1 == k) with
  | Option.some p => p.2
  | Option.none => PyVal.none

/-- `d.get(k, default)`: missing keys fall back to the supplied default. -/
def dgetD (d : PyDict) (k : String) (dflt : PyVal) : PyVal :=
  match d.find? (fun p => p.1 == k) with
  | Option.some p => p.2
  | Option.none => dflt

/-- `v.get(k)` applied to a value known to be a dict; `None` otherwise. -/
def vget (v : PyVal) (k : String) : PyVal :=
  match v with
  | PyVal.dict d => dget d k
  | _ => PyVal.none

/-- Python truthiness of a `PyVal` (`bool(v)`). -/
def pyTruthy (v : PyVal) : Bool :=
  match v with
  | PyVal.none => false
  | PyVal.str s => s ≠ ""
  | PyVal.int n => n ≠ 0
  | PyVal.rat q => q ≠ 0
  | PyVal.bool b => b
  | PyVal.list l => !l.isEmpty
  | PyVal.dict d => !d.isEmpty

/-- Python `str(...)` of scalar values, as used in f-string interpolation.
Container values are rendered only schematically. -/
def pyStr (v : PyVal) : String :=
  match v with
  | PyVal.none => "None"
  | PyVal.str s => s
  | PyVal.int n => toString n
  | PyVal.rat q => toString q.num ++ "/" ++ toString q.den
  | PyVal.bool b => if b then "True" else "False"
  | PyVal.list _ => "[...]"
  | PyVal.dict _ => "\x7b...\x7d"

/-- Extract an integer when the value is a Python int; `none` when the value
would make the numeric code raise `TypeError`.  A `PyVal.none` payload is not
an int: arithmetic on it raises. -/
def pyIntOpt (v : PyVal) : Option Int :=
  match v with
  | PyVal.int n => Option.some n
  | PyVal.bool b => Option.some (if b then 1 else 0)
  | _ => Option.none

/-- Extract a string when the value is a Python str (`.rsplit` and friends
raise on anything else). -/
def pyStrOpt (v : PyVal) : Option String :=
  match v with
  | PyVal.str s => Option.some s
  | _ => Option.none

/-- Python `int(q)` on a rational: truncation toward zero. -/
def pyInt (q : ℚ) : Int := Int.tdiv q.num q.den

/-!  ## fastmon_utils.sample_files  -/

/-- `random.sample(l, k)` modelled with an explicit index tape: repeatedly
remove the element at position `tape j % remaining-length` (a uniform choice
in the real library), `k` times or until the population is exhausted. -/
def pySample (tape : Nat → Nat) : Nat → List α → List α
  | 0, _ => []
  | _ + 1, [] => []
  | Nat.succ k, a :: as =>
      let i := tape 0 % (as.length + 1)
      (a :: as).getD i a :: pySample (fun n => tape (n + 1)) k ((a :: as).eraseIdx i)

/-- `fastmon_utils.sample_files`: select
`min(max(1, int(len(files) * selection_fraction)), len(files))` elements at
random; the empty input short-circuits to the empty output. -/
def sample_files (files : List α) (selection_fraction : ℚ) (tape : Nat → Nat) :
    List α :=
  if files.isEmpty then []
  else
    let selection_count : Int := max 1 (pyInt (files.length * selection_fraction))
    pySample tape (min selection_count files.length).toNat files

/-!  ## fastmon_utils.extract_run_number  -/

/-- Decimal digit run parsed as a number (`int(match.group(1))`). -/
def digitsToNat (ds : List Char) : Nat :=
  ds.foldl (fun n c => n * 10 + (c.toNat - 48)) 0

/-- `re.search` for a literal pattern followed by `(\d+)`, case-insensitively:
scan left to right for the first position where the literal matches and at
least one digit follows; return the maximal digit run captured there. -/
def searchLitDigits (lit : List Char) : List Char → Option (List Char)
  | [] => Option.none
  | c :: cs =>
      let here := c :: cs
      if (lit.map Char.toLower).isPrefixOf (here.map Char.toLower) then
        let ds := (here.drop lit.length).takeWhile Char.isDigit
        if ds.isEmpty then searchLitDigits lit cs else Option.some ds
      else searchLitDigits lit cs

/-- `fastmon_utils.extract_run_number`: try `run_(\d+)`, `run(\d+)`, `r(\d+)`
in that order (case-insensitive, anywhere in the filename); fall back to the
configured default run number. -/
def extract_run_number (filename : String) (default_run_number : Int) : Int :=
  match searchLitDigits ['r', 'u', 'n', '_'] filename.toList with
  | Option.some ds => Int.ofNat (digitsToNat ds)
  | Option.none =>
    match searchLitDigits ['r', 'u', 'n'] filename.toList with
    | Option.some ds => Int.ofNat (digitsToNat ds)
    | Option.none =>
      match searchLitDigits ['r'] filename.toList with
      | Option.some ds => Int.ofNat (digitsToNat ds)
      | Option.none => default_run_number

/-!  ## fastmon_utils.calculate_checksum — MD5 (RFC 1321) on byte lists  -/

/-- Reduce modulo `2^32` (all MD5 word arithmetic). -/
def w32 (n : Nat) : Nat := n % 4294967296

/-- 32-bit bitwise complement (arguments below `2^32`). -/
def not32 (n : Nat) : Nat := 4294967295 - n

/-- 32-bit left rotation by `c` places. -/
def rotl32 (x c : Nat) : Nat := (x % 2 ^ (32 - c)) * 2 ^ c + x / 2 ^ (32 - c)

/-- The 64 MD5 sine-table constants `T[i] = floor(2^32 * |sin(i+1)|)`. -/
def md5T : List Nat :=
  [0xd76aa478, 0xe8c7b756, 0x242070db, 0xc1bdceee,
   0xf57c0faf, 0x4787c62a, 0xa8304613, 0xfd469501,
   0x698098d8, 0x8b44f7af, 0xffff5bb1, 0x895cd7be,
   0x6b901122, 0xfd987193, 0xa679438e, 0x49b40821,
   0xf61e2562, 0xc040b340, 0x265e5a51, 0xe9b6c7aa,
   0xd62f105d, 0x02441453, 0xd8a1e681, 0xe7d3fbc8,
   0x21e1cde6, 0xc33707d6, 0xf4d50d87, 0x455a14ed,
   0xa9e3e905, 0xfcefa3f8, 0x676f02d9, 0x8d2a4c8a,
   0xfffa3942, 0x8771f681, 0x6d9d6122, 0xfde5380c,
   0xa4beea44, 0x4bdecfa9, 0xf6bb4b60, 0xbebfbc70,
   0x289b7ec6, 0xeaa127fa, 0xd4ef3085, 0x04881d05,
   0xd9d4d039, 0xe6db99e5, 0x1fa27cf8, 0xc4ac5665,
   0xf4292244, 0x432aff97, 0xab9423a7, 0xfc93a039,
   0x655b59c3, 0x8f0ccc92, 0xffeff47d, 0x85845dd1,
   0x6fa87e4f, 0xfe2ce6e0, 0xa3014314, 0x4e0811a1,
   0xf7537e82, 0xbd3af235, 0x2ad7d2bb, 0xeb86d391]

/-- The 64 MD5 per-round rotation amounts. -/
def md5S : List Nat :=
  [7, 12, 17, 22, 7, 12, 17, 22, 7, 12, 17, 22, 7, 12, 17, 22,
   5, 9, 14, 20, 5, 9, 14, 20, 5, 9, 14, 20, 5, 9, 14, 20,
   4, 11, 16, 23, 4, 11, 16, 23, 4, 11, 16, 23, 4, 11, 16, 23,
   6, 10, 15, 21, 6, 10, 15, 21, 6, 10, 15, 21, 6, 10, 15, 21]

/-- A little-endian 32-bit word from up to four bytes. -/
def leWord (bs : List Nat) : Nat :=
  bs.getD 0 0 + 256 * bs.getD 1 0 + 65536 * bs.getD 2 0 + 16777216 * bs.getD 3 0

/-- One MD5 round applied to the running `(A, B, C, D)` state. -/
def md5Round (M : Nat → Nat) (st : Nat × Nat × Nat × Nat) (i : Nat) :
    Nat × Nat × Nat × Nat :=
  match st with
  | (A, B, C, D) =>
    let F :=
      if i < 16 then Nat.lor (Nat.land B C) (Nat.land (not32 B) D)
      else if i < 32 then Nat.lor (Nat.land D B) (Nat.land (not32 D) C)
      else if i < 48 then Nat.xor (Nat.xor B C) D
      else Nat.xor C (Nat.lor B (not32 D))
    let g :=
      if i < 16 then i
      else if i < 32 then (5 * i + 1) % 16
      else if i < 48 then (3 * i + 5) % 16
      else (7 * i) % 16
    let F2 := w32 (F + A + md5T.getD i 0 + M g)
    (D, w32 (B + rotl32 F2 (md5S.getD i 0)), B, C)

/-- Process one 64-byte block into the chaining state. -/
def md5ProcessBlock (h : Nat × Nat × Nat × Nat) (block : List Nat) :
    Nat × Nat × Nat × Nat :=
  let M := fun j => leWord ((block.drop (4 * j)).take 4)
  match (List.range 64).foldl (md5Round M) h with
  | (A, B, C, D) =>
    match h with
    | (h0, h1, h2, h3) => (w32 (h0 + A), w32 (h1 + B), w32 (h2 + C), w32 (h3 + D))

/-- `count` little-endian bytes of `n`. -/
def natLEBytes (n count : Nat) : List Nat :=
  (List.range count).map (fun i => n / 256 ^ i % 256)

/-- MD5 padding: `0x80`, zeros to 56 mod 64, then the 64-bit bit length. -/
def md5Pad (msg : List Nat) : List Nat :=
  msg ++ [128] ++ List.replicate ((120 - (msg.length + 1) % 64) % 64) 0 ++
    natLEBytes (8 * msg.length) 8

/-- Split a list into chunks of `k + 1` elements (the last may be shorter);
structural recursion on a fuel bound so the definition computes by `decide`. -/
def chunksOfSuccAux (k : Nat) : Nat → List α → List (List α)
  | 0, _ => []
  | _, [] => []
  | Nat.succ fuel, a :: as =>
      (a :: as).take (k + 1) :: chunksOfSuccAux k fuel ((a :: as).drop (k + 1))

/-- Split a list into chunks of `k + 1` elements (the last may be shorter). -/
def chunksOfSucc (k : Nat) (l : List α) : List (List α) :=
  chunksOfSuccAux k l.length l

/-- The 16 digest bytes of the MD5 of a byte sequence. -/
def md5Digest (msg : List Nat) : List Nat :=
  match (chunksOfSucc 63 (md5Pad msg)).foldl md5ProcessBlock
      (0x67452301, 0xefcdab89, 0x98badcfe, 0x10325476) with
  | (a, b, c, d) => natLEBytes a 4 ++ natLEBytes b 4 ++ natLEBytes c 4 ++ natLEBytes d 4

/-- A nibble as a lowercase hex character. -/
def hexChar (n : Nat) : Char := if n < 10 then Char.ofNat (48 + n) else Char.ofNat (87 + n)

/-- A byte as two lowercase hex characters. -/
def byteHex (b : Nat) : String := String.mk [hexChar (b / 16), hexChar (b % 16)]

/-- `hashlib.md5(bytes).hexdigest()`: the 32-character lowercase hex digest. -/
def md5Hex (msg : List Nat) : String := String.join ((md5Digest msg).map byteHex)

/-- The observable state of a `hashlib.md5()` object: the bytes accumulated so
far (`update` concatenates; `hexdigest` digests the accumulated sequence). -/
def md5Update (buf chunk : List Nat) : List Nat := buf ++ chunk

/-- `f.read(4096)` iterated until `b""`: the file content in 4096-byte chunks. -/
def readChunks (bs : List Nat) : List (List Nat) := chunksOfSucc 4095 bs

/-- `fastmon_utils.calculate_checksum`: stream the file through MD5 in
4096-byte chunks; on a read error, log one error and return the empty string
instead of raising.  Returns the checksum together with the number of error
log records emitted. -/
def calculate_checksum (content : Except String (List Nat)) : String × Nat :=
  match content with
  | Except.error _ => ("", 1)
  | Except.ok bs => (md5Hex ((readChunks bs).foldl md5Update []), 0)

/-!  ## fastmon_utils — catalog helpers  -/

/-- A request issued to the remote catalog: method, path and JSON body
(`PyVal.none` when the call carries no body). -/
structure ApiCall where
  method : String
  path : String
  body : PyVal

/-- `v[k]` (Python `dict` indexing): `some` value when `v` is a dict carrying
the key, `none` when the subscript would raise. -/
def dictIndex (v : PyVal) (k : String) : Option PyVal :=
  match v with
  | PyVal.dict d => (d.find? (fun p => p.1 == k)).map (fun p => p.2)
  | _ => Option.none

/-- A numeric Python value as a rational (`int`, `float` and `bool` support
arithmetic; everything else raises `TypeError`). -/
def pyNumOpt (v : PyVal) : Option ℚ :=
  match v with
  | PyVal.int n => Option.some (n : ℚ)
  | PyVal.rat q => Option.some q
  | PyVal.bool b => Option.some (if b then 1 else 0)
  | _ => Option.none

/-- The agent's operating configuration.  Keys read with `config[...]` are
required fields; keys read with `config.get(..., default)` are optional. -/
structure Config where
  selection_fraction : ℚ
  default_run_number : Int
  base_url : Option String
  calculate_checksum : Option Bool
  tf_files_per_stf : Option Int
  tf_size_fraction : Option ℚ
  tf_sequence_start : Option Int

/-- `fastmon_utils.get_or_create_run`: look the run number up via
`GET /runs/?run_number=<n>`, accepting both a paginated dict with a non-empty
`results` list and a bare non-empty list; otherwise create the run via
`POST /runs/` with `start_time = now` and an `auto_created` conditions map.
Exceptions (transport errors, malformed responses) propagate as `Except.error`
— the function re-raises.  On success it returns the resolved record together
with the catalog requests issued. -/
def get_or_create_run (run_number : Int) (lookupResp createResp : Except String PyVal)
    (now : String) : Except String (PyVal × List ApiCall) :=
  let getCall : ApiCall :=
    { method := "get", path := "/runs/?run_number=" ++ toString run_number,
      body := PyVal.none }
  let run_data : PyVal :=
    PyVal.dict [("run_number", PyVal.int run_number), ("start_time", PyVal.str now),
      ("run_conditions", PyVal.dict [("auto_created", PyVal.bool true)])]
  let create : Except String (PyVal × List ApiCall) :=
    match createResp with
    | Except.error e => Except.error e
    | Except.ok new_run =>
        Except.ok (new_run, [getCall,
          { method := "post", path := "/runs/", body := run_data }])
  match lookupResp with
  | Except.error e => Except.error e
  | Except.ok resp =>
    match resp with
    | PyVal.dict d =>
        match dget d "results" with
        | PyVal.list rs =>
            match rs with
            | r :: _ => Except.ok (r, [getCall])
            | [] => create
        | PyVal.str s =>
            if s = "" then create
            else Except.ok (PyVal.str (String.mk [s.toList.headD ' ']), [getCall])
        | v => if pyTruthy v then Except.error "TypeError" else create
    | PyVal.list l =>
        match l with
        | r :: _ => Except.ok (r, [getCall])
        | [] => create
    | _ => create

/-- `str.rstrip('/')`: drop trailing slashes. -/
def pyRstripSlash (s : String) : String :=
  String.mk ((s.toList.reverse.dropWhile (fun c => c == '/')).reverse)

/-- `fastmon_utils.construct_file_url`: the stripped base URL joined with the
resolved absolute path. -/
def construct_file_url (absPath : String) (base_url : String) : String :=
  pyRstripSlash base_url ++ "/" ++ absPath

/-- `fastmon_utils.record_stf_file`: resolve the run, optionally checksum the
file, and `POST /stf-files/` a `registered` record.  Failures (run resolution,
remote error, malformed records) are logged and re-raised; a checksum read
error only degrades the checksum to `""`.  Returns the created record, the
catalog requests issued, and the number of checksum errors logged. -/
def record_stf_file (filePath fname absPath : String) (st_size : Int)
    (ctime_iso mtime_iso : String) (content : Except String (List Nat))
    (cfg : Config) (lookupResp createResp stfPostResp : Except String PyVal)
    (now : String) : Except String (PyVal × List ApiCall × Nat) :=
  let file_url := construct_file_url absPath (cfg.base_url.getD "file://")
  let run_number := extract_run_number fname cfg.default_run_number
  match get_or_create_run run_number lookupResp createResp now with
  | Except.error e => Except.error e
  | Except.ok (run_data, trace) =>
    match dictIndex run_data "run_id" with
    | Option.none => Except.error "KeyError: run_id"
    | Option.some runId =>
      let doCk := cfg.calculate_checksum.getD false
      let ck := if doCk then calculate_checksum content else ("", 0)
      let stf_file_data : PyVal :=
        PyVal.dict [("run", runId), ("stf_filename", PyVal.str fname),
          ("file_size_bytes", PyVal.int st_size), ("checksum", PyVal.str ck.1),
          ("status", PyVal.str "registered"),
          ("metadata", PyVal.dict [("original_path", PyVal.str filePath),
            ("file_url", PyVal.str file_url),
            ("creation_time", PyVal.str ctime_iso),
            ("modification_time", PyVal.str mtime_iso),
            ("agent_version", PyVal.str "1.0.0")])]
      match stfPostResp with
      | Except.error e => Except.error e
      | Except.ok stf_file =>
        match dictIndex stf_file "file_id" with
        | Option.none => Except.error "KeyError: file_id"
        | Option.some _ =>
            Except.ok (stf_file,
              trace ++ [{ method := "POST", path := "/stf-files/",
                          body := stf_file_data }], ck.2)

/-!  ## fastmon_utils.simulate_tf_subsamples  -/

/-- One simulated Time Frame descriptor, as built by
`simulate_tf_subsamples` (all keys are always present). -/
structure TfMeta where
  tf_filename : String
  file_size_bytes : Int
  sequence_number : Int
  stf_file_id : PyVal
  stf_parent : PyVal
  metadata : PyDict

/-- `filename.rsplit('.', 1)[0]`: everything before the last dot, or the whole
string when there is no dot. -/
def rsplitExt (s : String) : String :=
  let r := s.toList.reverse
  if r.contains '.' then String.mk (((r.dropWhile (fun c => c ≠ '.')).drop 1).reverse)
  else s

/-- Python `f"{n:03d}"`: decimal, zero-padded to a total width of 3 (the sign
counts toward the width). -/
def pyFormat03d (n : Int) : String :=
  let sign := if n < 0 then "-" else ""
  let digits := toString n.natAbs
  sign ++ String.mk (List.replicate ((3 - sign.length) - digits.length) '0') ++ digits

/-- The simulation-provenance metadata attached to every TF descriptor. -/
def tfSimMetadata (stf_file : PyDict) (tf_size_fraction : ℚ) (agent_name : String) :
    PyDict :=
  [("simulation", PyVal.bool true), ("created_from", dget stf_file "filename"),
   ("tf_size_fraction", PyVal.rat tf_size_fraction),
   ("agent_name", PyVal.str agent_name), ("state", dget stf_file "state"),
   ("substate", dget stf_file "substate"), ("start", dget stf_file "start"),
   ("end", dget stf_file "end")]

/-- `fastmon_utils.simulate_tf_subsamples`: derive `tf_files_per_stf` TF
descriptors from one STF payload; sequence numbers start at
`tf_sequence_start`, the filename appends `_tf_<seq:03d>.tf` to the STF base
name, and sizes jitter around `size * tf_size_fraction` via the Gaussian tape
`g`.  Any internal error (ill-typed size or filename fields) yields the empty
list instead of raising. -/
def simulate_tf_subsamples (stf_file : PyDict) (cfg : Config) (agent_name : String)
    (g : Nat → ℚ) : List TfMeta :=
  let tfN := cfg.tf_files_per_stf.getD 2
  let frac := cfg.tf_size_fraction.getD (15 / 100)
  let seqStart := cfg.tf_sequence_start.getD 1
  match pyNumOpt (dgetD stf_file "size_bytes" (PyVal.int 0)),
      pyStrOpt (dgetD stf_file "filename" (PyVal.str "unknown")) with
  | Option.some stf_size, Option.some filename =>
      (List.range tfN.toNat).map (fun (i : Nat) =>
        let seq := seqStart + (i : Int)
        { tf_filename := rsplitExt filename ++ "_tf_" ++ pyFormat03d seq ++ ".tf"
          file_size_bytes := pyInt (stf_size * frac * g i)
          sequence_number := seq
          stf_file_id := dget stf_file "file_id"
          stf_parent := dget stf_file "filename"
          metadata := tfSimMetadata stf_file frac agent_name })
  | _, _ => []

/-!  ## fastmon_utils.record_tf_file and notification messages  -/

/-- The `POST /fastmon-files/` body built from one TF descriptor: the parent
STF is referenced by its identifier, never by filename. -/
def tfRequestBody (tf : TfMeta) : PyVal :=
  PyVal.dict [("stf_file", tf.stf_file_id), ("tf_filename", PyVal.str tf.tf_filename),
    ("file_size_bytes", PyVal.int tf.file_size_bytes),
    ("status", PyVal.str "registered"), ("metadata", PyVal.dict tf.metadata)]

/-- `fastmon_utils.record_tf_file`: persist one TF descriptor.  On remote
failure it logs exactly one error and returns the empty dict instead of
raising; on success it reads `tf_file.get('tf_file_id')` off the response
inside the same `try`, so a non-dict response raises `AttributeError` there
and is likewise turned into one logged error and an empty dict, while a dict
response is returned as the created record.  The result carries the request
issued and the number of errors logged. -/
def record_tf_file (tf : TfMeta) (resp : Except String PyVal) :
    PyVal × ApiCall × Nat :=
  let call : ApiCall := { method := "post", path := "/fastmon-files/",
                          body := tfRequestBody tf }
  match resp with
  | Except.ok (PyVal.dict d) => (PyVal.dict d, call, 0)
  | Except.ok _ => (PyVal.dict [], call, 1)
  | Except.error _ => (PyVal.dict [], call, 1)

/-- `fastmon_utils.create_tf_message`: the broadcast notification built from a
persisted TF record and its parent STF context. -/
def create_tf_message (tf_file : PyDict) (stf_file : PyDict)
    (agent_name now : String) : PyDict :=
  [("msg_type", PyVal.str "tf_file_registered"),
   ("processed_by", PyVal.str agent_name),
   ("tf_file_id", dget tf_file "tf_file_id"),
   ("tf_filename", dget tf_file "tf_filename"),
   ("file_size_bytes", dget tf_file "file_size_bytes"),
   ("stf_filename", dget stf_file "stf_filename"),
   ("run_number", dget stf_file "run_id"),
   ("status", dget tf_file "status"),
   ("timestamp", PyVal.str now),
   ("message", PyVal.str ("TF file " ++ pyStr (dget tf_file "tf_filename") ++
     " registered for fast monitoring"))]

/-!  ## main.py — FastMonitorAgent.sample_timeframes  -/

/-- The agent identity: its name and the broadcast destination topic. -/
structure AgentCtx where
  agentName : String
  destination : String

/-- The external world as seen during one `sample_timeframes` call: one
response stream per remote endpoint family, the broker publish outcomes, the
Gaussian tape, the wall-clock string, and the `FASTMON_TRACK_WORKFLOW` flag. -/
structure Env where
  stageCreate : Except String PyVal
  stagePatchA : Except String PyVal
  stagePatchB : Except String PyVal
  fastmonPost : Nat → Except String PyVal
  sendOk : Nat → Bool
  gauss : Nat → ℚ
  now : String
  trackFlag : Bool

/-- The agent's mutable per-instance state: message counters, the accumulated
catalog-request trace, the broadcast messages delivered to the broker, and the
log counters for errors and warnings. -/
structure AgentState where
  stf_messages_processed : Nat
  total_stf_messages : Nat
  total_tf_files_created : Nat
  last_message_time : Option String
  apiTrace : List ApiCall
  sent : List (String × PyDict)
  errors : Nat
  warnings : Nat

/-- The workflow-tracking prologue (`main.py` lines 193–218): when the flag is
on and the message carries a truthy `workflow_id`, create the stage record and
immediately patch it to `fastmon_processing`; any failure inside the `try`
block is logged as a warning and leaves `stage_id` as it was at the point of
failure. -/
def trackStart (env : Env) (ag : AgentCtx) (msg : PyDict) (st : AgentState) :
    AgentState × PyVal :=
  if pyTruthy (dget msg "workflow_id") && env.trackFlag then
    let stage_data : PyVal :=
      PyVal.dict [("workflow", dget msg "workflow_id"),
        ("agent_name", PyVal.str ag.agentName),
        ("agent_type", PyVal.str "fastmon"),
        ("status", PyVal.str "fastmon_received"),
        ("input_message", PyVal.dict msg)]
    let postCall : ApiCall :=
      { method := "POST", path := "/workflow-stages/", body := stage_data }
    match env.stageCreate with
    | Except.error _ =>
        ({ st with apiTrace := st.apiTrace ++ [postCall],
                   warnings := st.warnings + 1 }, PyVal.none)
    | Except.ok stage =>
      match stage with
      | PyVal.dict d =>
          let stageId := dget d "id"
          let patchBody : PyVal :=
            PyVal.dict [("status", PyVal.str "fastmon_processing"),
              ("started_at", PyVal.str env.now)]
          let patchCall : ApiCall :=
            { method := "PATCH",
              path := "/workflow-stages/" ++ pyStr stageId ++ "/",
              body := patchBody }
          match env.stagePatchA with
          | Except.ok _ =>
              ({ st with apiTrace := st.apiTrace ++ [postCall, patchCall] }, stageId)
          | Except.error _ =>
              ({ st with apiTrace := st.apiTrace ++ [postCall, patchCall],
                         warnings := st.warnings + 1 }, stageId)
      | _ =>
          ({ st with apiTrace := st.apiTrace ++ [postCall],
                     warnings := st.warnings + 1 }, PyVal.none)
  else (st, PyVal.none)

/-- The accumulator threaded through the TF registration loop. -/
structure LoopAcc where
  st : AgentState
  created : Nat
  registered : List PyVal
  postIdx : Nat
  sendIdx : Nat

/-- One pass of the loop body of `sample_timeframes` (lines 226–233): record
the TF descriptor (failure is contained inside `record_tf_file`), count and
broadcast it when the returned record is truthy, and always append the result
to the registered list. -/
def registerStep (env : Env) (ag : AgentCtx) (msg : PyDict) (acc : LoopAcc)
    (tf : TfMeta) : LoopAcc :=
  match record_tf_file tf (env.fastmonPost acc.postIdx) with
  | (tf_file, call, errs) =>
    let st := { acc.st with apiTrace := acc.st.apiTrace ++ [call],
                            errors := acc.st.errors + errs }
    if pyTruthy tf_file then
      match tf_file with
      | PyVal.dict d =>
          let m := create_tf_message d msg ag.agentName env.now
          let st :=
            if env.sendOk acc.sendIdx then
              { st with sent := st.sent ++ [(ag.destination, m)] }
            else { st with errors := st.errors + 1 }
          { st := st, created := acc.created + 1,
            registered := acc.registered ++ [tf_file],
            postIdx := acc.postIdx + 1, sendIdx := acc.sendIdx + 1 }
      | _ =>
          { st := { st with errors := st.errors + 1 }, created := acc.created + 1,
            registered := acc.registered ++ [tf_file],
            postIdx := acc.postIdx + 1, sendIdx := acc.sendIdx }
    else
      { st := st, created := acc.created,
        registered := acc.registered ++ [tf_file],
        postIdx := acc.postIdx + 1, sendIdx := acc.sendIdx }

/-- The TF registration loop over all simulated descriptors. -/
def registerLoop (env : Env) (ag : AgentCtx) (msg : PyDict) (tfs : List TfMeta)
    (acc : LoopAcc) : LoopAcc :=
  tfs.foldl (registerStep env ag msg) acc

/-- `[tf.get('tf_filename') for tf in tf_files_registered if tf]`: `some` list
when every truthy entry is a dict, `none` when the comprehension would raise
(a truthy non-dict entry has no `.get`). -/
def collectTfNames : List PyVal → Option (List PyVal)
  | [] => Option.some []
  | v :: vs =>
      if pyTruthy v then
        match v with
        | PyVal.dict d =>
            match collectTfNames vs with
            | Option.some rest => Option.some (dget d "tf_filename" :: rest)
            | Option.none => Option.none
        | _ => Option.none
      else collectTfNames vs

/-- The workflow-tracking epilogue (lines 240–253): when a stage id was
obtained, patch the stage to `fastmon_complete` with the output summary; any
failure is logged as a warning and swallowed. -/
def trackComplete (env : Env) (stageId : PyVal) (created : Nat)
    (registered : List PyVal) (st : AgentState) : AgentState :=
  if pyTruthy stageId then
    match collectTfNames registered with
    | Option.none => { st with warnings := st.warnings + 1 }
    | Option.some names =>
      let output_message : PyVal :=
        PyVal.dict [("tf_files_created", PyVal.int created),
          ("tf_filenames", PyVal.list names)]
      let patchBody : PyVal :=
        PyVal.dict [("status", PyVal.str "fastmon_complete"),
          ("completed_at", PyVal.str env.now),
          ("output_message", output_message)]
      let patchCall : ApiCall :=
        { method := "PATCH", path := "/workflow-stages/" ++ pyStr stageId ++ "/",
          body := patchBody }
      match env.stagePatchB with
      | Except.ok _ => { st with apiTrace := st.apiTrace ++ [patchCall] }
      | Except.error _ =>
          { st with apiTrace := st.apiTrace ++ [patchCall],
                    warnings := st.warnings + 1 }
  else st

/-- `FastMonitorAgent.sample_timeframes` (main.py lines 175–255): bump the
message counters, bail out when the message has no truthy filename, optionally
open a workflow stage, simulate and register the TF subsamples, broadcast one
notification per successfully registered TF, and optionally close the
workflow stage.  Returns the new agent state and the registered-TF list the
method returns. -/
def sample_timeframes (cfg : Config) (ag : AgentCtx) (env : Env)
    (st : AgentState) (msg : PyDict) : AgentState × List PyVal :=
  let st := { st with stf_messages_processed := st.stf_messages_processed + 1,
                      total_stf_messages := st.total_stf_messages + 1,
                      last_message_time := Option.some env.now }
  if !pyTruthy (dget msg "filename") then
    ({ st with errors := st.errors + 1 }, [])
  else
    match trackStart env ag msg st with
    | (st, stageId) =>
      let tfs := simulate_tf_subsamples msg cfg ag.agentName env.gauss
      let acc := registerLoop env ag msg tfs
        { st := st, created := 0, registered := [], postIdx := 0, sendIdx := 0 }
      let st := { acc.st with
        total_tf_files_created := acc.st.total_tf_files_created + acc.created }
      let st := trackComplete env stageId acc.created acc.registered st
      (st, acc.registered)

/-- A catalog request aimed at the workflow-stage endpoints (path starts with
`/workflow-stages`). -/
def isStageCall (c : ApiCall) : Bool :=
  "/workflow-stages".toList.isPrefixOf c.path.toList

/-- A catalog request aimed at the TF registration endpoint. -/
def isFastmonCall (c : ApiCall) : Bool :=
  c.path == "/fastmon-files/"

/-!  ## Concrete example data (used to instantiate the theorems)  -/

/-- A concrete agent configuration mirroring the end-to-end example:
two TF files per STF at fraction `0.15`. -/
def exCfg : Config :=
  { selection_fraction := 1/10, default_run_number := 1,
    base_url := Option.some "file://", calculate_checksum := Option.some true,
    tf_files_per_stf := Option.some 2, tf_size_fraction := Option.some (15/100),
    tf_sequence_start := Option.some 1 }

/-- A concrete inbound `stf_ready` message for `run_42_data.stf` of size
`1_000_000` (the schema produced by the data agent). -/
def exMsg : PyDict :=
  [("msg_type", PyVal.str "stf_ready"), ("filename", PyVal.str "run_42_data.stf"),
   ("file_id", PyVal.str "stf-uuid-1"), ("run_id", PyVal.int 42),
   ("file_url", PyVal.str "file:///data/run_42_data.stf"),
   ("checksum", PyVal.str ""), ("size_bytes", PyVal.int 1000000),
   ("state", PyVal.str "physics"), ("substate", PyVal.str "running")]

/-- The same inbound message carrying a workflow identifier. -/
def exMsgWf : PyDict := exMsg ++ [("workflow_id", PyVal.str "wf-1")]

/-- An inbound message with no filename field. -/
def exMsgNoFile : PyDict := [("msg_type", PyVal.str "stf_ready"), ("run_id", PyVal.int 7)]

/-- A concrete catalog response for a successful TF registration. -/
def exTfResp : PyVal :=
  PyVal.dict [("tf_file_id", PyVal.str "tf-uuid-9"),
    ("tf_filename", PyVal.str "run_42_data_tf_001.tf"),
    ("file_size_bytes", PyVal.int 150000), ("status", PyVal.str "registered")]

/-- A fully cooperative environment: every catalog call and broker publish
succeeds; workflow tracking is disabled. -/
def exEnv : Env :=
  { stageCreate := Except.ok (PyVal.dict [("id", PyVal.int 7)]),
    stagePatchA := Except.ok (PyVal.dict []),
    stagePatchB := Except.ok (PyVal.dict []),
    fastmonPost := fun _ => Except.ok exTfResp,
    sendOk := fun _ => true, gauss := fun _ => 1,
    now := "2025-06-01T12:00:00", trackFlag := false }

/-- The cooperative environment with workflow tracking enabled. -/
def exEnvTrack : Env := { exEnv with trackFlag := true }

/-- The agent identity used in the examples. -/
def exAgent : AgentCtx := { agentName := "swf-fastmon-agent", destination := "epictopic" }

/-- A freshly initialised agent state. -/
def exState : AgentState :=
  { stf_messages_processed := 0, total_stf_messages := 0, total_tf_files_created := 0,
    last_message_time := Option.none, apiTrace := [], sent := [], errors := 0,
    warnings := 0 }

/-!
## Helper lemmas
-/

/-- On non-negative arguments Python's `int(...)` truncation agrees with the
mathematical floor. -/
theorem pyInt_eq_floor (q : ℚ) (h : 0 ≤ q) : pyInt q = ⌊q⌋ := by
  unfold pyInt
  rw [Rat.floor_def, Int.tdiv_eq_ediv (Rat.num_nonneg.mpr h) (Int.ofNat_nonneg q.den)]

/-- `pySample` returns `min k length` elements. -/
theorem pySample_length (k : Nat) :
    ∀ (t : Nat → Nat) (l : List α), (pySample t k l).length = min k l.length := by
  induction k with
  | zero => intro t l; simp [pySample]
  | succ k ih =>
    intro t l
    cases l with
    | nil => simp [pySample]
    | cons a as =>
      simp only [pySample, List.length_cons]
      rw [ih]
      have hi : t 0 % (as.length + 1) < (a :: as).length := by
        simp [Nat.mod_lt _ (Nat.succ_pos as.length)]
      rw [List.length_eraseIdx_of_lt hi]
      simp only [List.length_cons]
      omega

/-- Every element `pySample` returns is drawn from the input list. -/
theorem pySample_mem (k : Nat) :
    ∀ (t : Nat → Nat) (l : List α) (x : α), x ∈ pySample t k l → x ∈ l := by
  induction k with
  | zero => intro t l x h; simp [pySample] at h
  | succ k ih =>
    intro t l x h
    cases l with
    | nil => simp [pySample] at h
    | cons a as =>
      simp only [pySample, List.mem_cons] at h
      rcases h with h | h
      · have hi : t 0 % (as.length + 1) < (a :: as).length := by
          simp [Nat.mod_lt _ (Nat.succ_pos as.length)]
        rw [h, List.getD_eq_getElem _ _ hi]
        exact List.getElem_mem hi
      · exact (List.eraseIdx_sublist (a :: as) (t 0 % (as.length + 1))).mem (ih _ _ _ h)

/-- Removing position `i` removes that occurrence: in a duplicate-free list the
element at `i` no longer appears. -/
theorem not_mem_eraseIdx_self (l : List α) (i : Nat) (hi : i < l.length)
    (hn : l.Nodup) : l[i] ∉ l.eraseIdx i := by
  intro hmem
  rcases List.mem_iff_getElem.mp hmem with ⟨j, hj, hje⟩
  rw [List.getElem_eraseIdx] at hje
  split at hje
  · exact absurd ((hn.getElem_inj_iff).mp hje) (by omega)
  · exact absurd ((hn.getElem_inj_iff).mp hje) (by omega)

/-- Sampling without replacement from a duplicate-free list stays
duplicate-free. -/
theorem pySample_nodup (k : Nat) :
    ∀ (t : Nat → Nat) (l : List α), l.Nodup → (pySample t k l).Nodup := by
  induction k with
  | zero => intro t l _; simp [pySample]
  | succ k ih =>
    intro t l hn
    cases l with
    | nil => simp [pySample]
    | cons a as =>
      simp only [pySample]
      have hi : t 0 % (as.length + 1) < (a :: as).length := by
        simp [Nat.mod_lt _ (Nat.succ_pos as.length)]
      rw [List.getD_eq_getElem _ _ hi]
      refine List.Nodup.cons ?_ (ih _ _ (((a :: as).eraseIdx_sublist _).nodup hn))
      intro hmem
      exact not_mem_eraseIdx_self _ _ hi hn (pySample_mem k _ _ _ hmem)

/-!
## Claim theorems
-/

/-- C2 (amended): for every fraction `f ∈ [0,1]`, `sample_files` on the empty
list returns the empty list; on any list it returns only elements of the
input, chosen at pairwise-distinct positions (so the output is duplicate-free
whenever the input is), and on a non-empty list of length `n` it returns
exactly `min(max(1, floor(n·f)), n)` items. -/
theorem sample_files_cardinality_membership {α : Type} (l : List α) (f : ℚ)
    (t : Nat → Nat) (h0 : 0 ≤ f) (h1 : f ≤ 1) :
    sample_files ([] : List α) f t = [] ∧
    (∀ x ∈ sample_files l f t, x ∈ l) ∧
    (l.Nodup → (sample_files l f t).Nodup) ∧
    (l ≠ [] →
      (sample_files l f t).length =
        min (max 1 (⌊(l.length : ℚ) * f⌋).toNat) l.length) := by
  refine ⟨by simp [sample_files], ?_, ?_, ?_⟩
  · intro x hx
    unfold sample_files at hx
    split at hx
    · simp at hx
    · exact pySample_mem _ _ _ _ hx
  · intro hn
    unfold sample_files
    split
    · exact List.nodup_nil
    · exact pySample_nodup _ _ _ hn
  · intro hne
    unfold sample_files
    rw [if_neg (by simpa [List.isEmpty_iff] using hne)]
    rw [pySample_length]
    have hq : (0 : ℚ) ≤ (l.length : ℚ) * f := mul_nonneg (Nat.cast_nonneg _) h0
    rw [pyInt_eq_floor _ hq]
    have hm : 0 ≤ ⌊(l.length : ℚ) * f⌋ := Int.floor_nonneg.mpr hq
    have hl : 1 ≤ l.length := List.length_pos.mpr hne
    omega

/-- C2 witness: the amended claim instantiated on a five-element list with
fraction `0.4`: two items are selected, all from the input. -/
theorem sample_files_cardinality_membership_witness :
    (∀ x ∈ sample_files ["a", "b", "c", "d", "e"] (4/10) (fun _ => 3),
      x ∈ ["a", "b", "c", "d", "e"]) ∧
    (sample_files ["a", "b", "c", "d", "e"] (4/10) (fun _ => 3)).length = 2 := by
  have h := sample_files_cardinality_membership (l := ["a", "b", "c", "d", "e"])
    (f := 4/10) (t := fun _ => 3) (by norm_num) (by norm_num)
  refine ⟨h.2.1, ?_⟩
  rw [h.2.2.2 (by simp)]
  norm_num
  rfl

/-- C2 counterexample: on an input list containing the same element twice with
fraction `1.0`, `sample_files` necessarily returns that element twice — the
output is not duplicate-free, refuting the unconditional "no duplicates" part
of the claim (the cardinality and membership parts do hold here). -/
theorem sample_files_duplicates_counterexample :
    sample_files ["a", "a"] 1 (fun _ => 0) = ["a", "a"] ∧
    ¬ (sample_files ["a", "a"] 1 (fun _ => 0)).Nodup := by
  have h : sample_files ["a", "a"] 1 (fun _ => 0) = ["a", "a"] := by
    simp [sample_files, pySample, pyInt]
  exact ⟨h, by rw [h]; decide⟩

/-- C7: run-number extraction tries `run_<digits>`, `run<digits>`, `r<digits>`
in that order, case-insensitively, anywhere in the filename, returning the
digits of the first pattern that matches and the configured default when none
match: the four specified examples, the default for every fallback value, a
case-insensitive match, and a priority example where a later `run_` match
beats an earlier bare `r` match. -/
theorem extract_run_number_patterns :
    extract_run_number "run_12345_stf_001.stf" 1 = 12345 ∧
    extract_run_number "run9999.stf" 1 = 9999 ∧
    extract_run_number "r77_data.stf" 1 = 77 ∧
    extract_run_number "no_run_here.stf" 5 = 5 ∧
    (∀ d : Int, extract_run_number "no_run_here.stf" d = d) ∧
    extract_run_number "RUN_42.stf" 7 = 42 ∧
    extract_run_number "r7_run_55.stf" 1 = 55 :=
  ⟨by decide, by decide, by decide, by decide, fun d => rfl, by decide, by decide⟩


theorem create_tf_message_fields (d : PyDict) (msg : PyDict) (agn now : String) :
    dget (create_tf_message d msg agn now) "msg_type" = PyVal.str "tf_file_registered" ∧
    dget (create_tf_message d msg agn now) "run_number" = dget msg "run_id" ∧
    dget (create_tf_message d msg agn now) "stf_filename" = dget msg "stf_filename" :=
  ⟨rfl, rfl, rfl⟩

theorem registerStep_ok (env : Env) (ag : AgentCtx) (msg : PyDict) (acc : LoopAcc)
    (tf : TfMeta) (d : PyDict)
    (hp : env.fastmonPost acc.postIdx = Except.ok (PyVal.dict d)) (hd : d ≠ [])
    (hs : env.sendOk acc.sendIdx = true) :
    registerStep env ag msg acc tf =
      { st := { acc.st with
          apiTrace := acc.st.apiTrace ++
            [{ method := "post", path := "/fastmon-files/", body := tfRequestBody tf }],
          sent := acc.st.sent ++
            [(ag.destination, create_tf_message d msg ag.agentName env.now)] },
        created := acc.created + 1,
        registered := acc.registered ++ [PyVal.dict d],
        postIdx := acc.postIdx + 1, sendIdx := acc.sendIdx + 1 } := by
  simp [registerStep, record_tf_file, hp, pyTruthy, hd, hs]

theorem registerStep_registered (env : Env) (ag : AgentCtx) (msg : PyDict)
    (acc : LoopAcc) (tf : TfMeta) :
    (registerStep env ag msg acc tf).registered =
      acc.registered ++ [(record_tf_file tf (env.fastmonPost acc.postIdx)).1] := by
  rcases hp : env.fastmonPost acc.postIdx with e | r
  · simp [registerStep, record_tf_file, hp, pyTruthy]
  · cases r <;> simp [registerStep, record_tf_file, hp, pyTruthy] <;> split <;> simp

theorem registerStep_trace (env : Env) (ag : AgentCtx) (msg : PyDict)
    (acc : LoopAcc) (tf : TfMeta) :
    (registerStep env ag msg acc tf).st.apiTrace = acc.st.apiTrace ++
      [{ method := "post", path := "/fastmon-files/", body := tfRequestBody tf }] := by
  rcases hp : env.fastmonPost acc.postIdx with e | r
  · simp [registerStep, record_tf_file, hp, pyTruthy]
  · cases r <;> simp [registerStep, record_tf_file, hp, pyTruthy] <;>
      split <;> (try split) <;> simp

theorem registerStep_counters (env : Env) (ag : AgentCtx) (msg : PyDict)
    (acc : LoopAcc) (tf : TfMeta) :
    (registerStep env ag msg acc tf).st.total_tf_files_created =
        acc.st.total_tf_files_created ∧
    (registerStep env ag msg acc tf).st.stf_messages_processed =
        acc.st.stf_messages_processed ∧
    (registerStep env ag msg acc tf).st.total_stf_messages =
        acc.st.total_stf_messages ∧
    (registerStep env ag msg acc tf).st.warnings = acc.st.warnings := by
  rcases hp : env.fastmonPost acc.postIdx with e | r
  · simp [registerStep, record_tf_file, hp, pyTruthy]
  · cases r <;> simp [registerStep, record_tf_file, hp, pyTruthy] <;>
      split <;> (try split) <;> simp

theorem registerLoop_ok (env : Env) (ag : AgentCtx) (msg : PyDict)
    (hpost : ∀ i, ∃ d, env.fastmonPost i = Except.ok (PyVal.dict d) ∧ d ≠ [])
    (hsend : ∀ i, env.sendOk i = true) :
    ∀ (tfs : List TfMeta) (acc : LoopAcc),
      (registerLoop env ag msg tfs acc).created = acc.created + tfs.length ∧
      (registerLoop env ag msg tfs acc).st.total_tf_files_created =
        acc.st.total_tf_files_created ∧
      (∃ L, (registerLoop env ag msg tfs acc).st.sent = acc.st.sent ++ L ∧
        L.length = tfs.length ∧
        ∀ p ∈ L, p.1 = ag.destination ∧
          dget p.2 "msg_type" = PyVal.str "tf_file_registered" ∧
          dget p.2 "run_number" = dget msg "run_id" ∧
          dget p.2 "stf_filename" = dget msg "stf_filename") ∧
      (∃ T, (registerLoop env ag msg tfs acc).st.apiTrace = acc.st.apiTrace ++ T ∧
        T.length = tfs.length ∧
        ∀ c ∈ T, c.method = "post" ∧ c.path = "/fastmon-files/") := by
  intro tfs
  induction tfs with
  | nil =>
    intro acc
    exact ⟨by simp [registerLoop], by simp [registerLoop],
      ⟨[], by simp [registerLoop], rfl, by simp⟩,
      ⟨[], by simp [registerLoop], rfl, by simp⟩⟩
  | cons t ts ih =>
    intro acc
    obtain ⟨d, hp, hd⟩ := hpost acc.postIdx
    have hstep := registerStep_ok env ag msg acc t d hp hd (hsend acc.sendIdx)
    have hloop : registerLoop env ag msg (t :: ts) acc =
        registerLoop env ag msg ts (registerStep env ag msg acc t) := rfl
    rw [hloop, hstep]
    obtain ⟨hc, htc, ⟨L, hL, hLlen, hLp⟩, T, hT, hTlen, hTp⟩ :=
      ih { st := { acc.st with
              apiTrace := acc.st.apiTrace ++
                [{ method := "post", path := "/fastmon-files/",
                   body := tfRequestBody t }],
              sent := acc.st.sent ++
                [(ag.destination, create_tf_message d msg ag.agentName env.now)] },
            created := acc.created + 1,
            registered := acc.registered ++ [PyVal.dict d],
            postIdx := acc.postIdx + 1, sendIdx := acc.sendIdx + 1 }
    refine ⟨by rw [hc]; simp only [List.length_cons]; omega, htc, ?_, ?_⟩
    · refine ⟨(ag.destination, create_tf_message d msg ag.agentName env.now) :: L, ?_, ?_, ?_⟩
      · rw [hL]
        simp
      · simp [hLlen]
      · intro p hp2
        rcases List.mem_cons.mp hp2 with h | h
        · subst h
          exact ⟨rfl, rfl, rfl, rfl⟩
        · exact hLp p h
    · refine ⟨{ method := "post", path := "/fastmon-files/",
                body := tfRequestBody t } :: T, ?_, ?_, ?_⟩
      · rw [hT]
        simp
      · simp [hTlen]
      · intro c hc2
        rcases List.mem_cons.mp hc2 with h | h
        · subst h
          exact ⟨rfl, rfl⟩
        · exact hTp c h

theorem registerLoop_trace (env : Env) (ag : AgentCtx) (msg : PyDict) :
    ∀ (tfs : List TfMeta) (acc : LoopAcc),
      ∃ T, (registerLoop env ag msg tfs acc).st.apiTrace = acc.st.apiTrace ++ T ∧
        ∀ c ∈ T, c.method = "post" ∧ c.path = "/fastmon-files/" := by
  intro tfs
  induction tfs with
  | nil => intro acc; exact ⟨[], by simp [registerLoop], by simp⟩
  | cons t ts ih =>
    intro acc
    have hloop : registerLoop env ag msg (t :: ts) acc =
        registerLoop env ag msg ts (registerStep env ag msg acc t) := rfl
    obtain ⟨T, hT, hTp⟩ := ih (registerStep env ag msg acc t)
    refine ⟨{ method := "post", path := "/fastmon-files/",
              body := tfRequestBody t } :: T, ?_, ?_⟩
    · rw [hloop, hT, registerStep_trace]
      simp
    · intro c hc
      rcases List.mem_cons.mp hc with h | h
      · subst h; exact ⟨rfl, rfl⟩
      · exact hTp c h

theorem registerLoop_registered_dicts (env : Env) (ag : AgentCtx) (msg : PyDict)
    (hpost : ∀ i, ∃ d, env.fastmonPost i = Except.ok (PyVal.dict d)) :
    ∀ (tfs : List TfMeta) (acc : LoopAcc),
      (∀ v ∈ acc.registered, ∃ d, v = PyVal.dict d) →
      ∀ v ∈ (registerLoop env ag msg tfs acc).registered, ∃ d, v = PyVal.dict d := by
  intro tfs
  induction tfs with
  | nil => intro acc hacc; exact hacc
  | cons t ts ih =>
    intro acc hacc
    have hloop : registerLoop env ag msg (t :: ts) acc =
        registerLoop env ag msg ts (registerStep env ag msg acc t) := rfl
    rw [hloop]
    refine ih _ ?_
    rw [registerStep_registered]
    intro v hv
    rcases List.mem_append.mp hv with h | h
    · exact hacc v h
    · obtain ⟨d, hp⟩ := hpost acc.postIdx
      simp only [List.mem_singleton] at h
      subst h
      exact ⟨d, by rw [hp]; rfl⟩

theorem collectTfNames_of_dicts :
    ∀ (l : List PyVal), (∀ v ∈ l, ∃ d, v = PyVal.dict d) →
      ∃ ns, collectTfNames l = Option.some ns := by
  intro l
  induction l with
  | nil => intro _; exact ⟨[], rfl⟩
  | cons v vs ih =>
    intro h
    obtain ⟨ns, hns⟩ := ih (fun w hw => h w (List.mem_cons_of_mem v hw))
    obtain ⟨d, hd⟩ := h v (List.mem_cons_self v vs)
    subst hd
    unfold collectTfNames
    split
    · rw [hns]
      exact ⟨_, rfl⟩
    · exact ⟨ns, hns⟩

theorem dgetD_of_dget_str (d : PyDict) (k s : String) (v : PyVal)
    (h : dget d k = PyVal.str s) : dgetD d k v = PyVal.str s := by
  unfold dget at h
  unfold dgetD
  rcases hf : d.find? (fun p => p.1 == k) with _ | p
  · rw [hf] at h
    cases h
  · rw [hf] at h
    rw [hf]
    exact h

theorem simulate_tf_subsamples_length (stf_file : PyDict) (cfg : Config)
    (agent_name : String) (g : Nat → ℚ) (sz : ℚ) (fn : String)
    (hsz : pyNumOpt (dgetD stf_file "size_bytes" (PyVal.int 0)) = Option.some sz)
    (hfn : pyStrOpt (dgetD stf_file "filename" (PyVal.str "unknown")) = Option.some fn) :
    (simulate_tf_subsamples stf_file cfg agent_name g).length =
      (cfg.tf_files_per_stf.getD 2).toNat := by
  unfold simulate_tf_subsamples
  rw [hsz, hfn]
  simp

theorem trackStart_sent (env : Env) (ag : AgentCtx) (msg : PyDict) (st : AgentState) :
    (trackStart env ag msg st).1.sent = st.sent ∧
    (trackStart env ag msg st).1.total_tf_files_created = st.total_tf_files_created ∧
    (trackStart env ag msg st).1.stf_messages_processed = st.stf_messages_processed ∧
    (trackStart env ag msg st).1.total_stf_messages = st.total_stf_messages ∧
    (trackStart env ag msg st).1.errors = st.errors := by
  unfold trackStart
  split
  · rcases env.stageCreate with e | stage
    · exact ⟨rfl, rfl, rfl, rfl, rfl⟩
    · cases stage <;> first
        | exact ⟨rfl, rfl, rfl, rfl, rfl⟩
        | (rcases env.stagePatchA with e | x <;> exact ⟨rfl, rfl, rfl, rfl, rfl⟩)
  · exact ⟨rfl, rfl, rfl, rfl, rfl⟩

theorem trackStart_trace (env : Env) (ag : AgentCtx) (msg : PyDict) (st : AgentState) :
    ∃ T, (trackStart env ag msg st).1.apiTrace = st.apiTrace ++ T ∧
      ∀ c ∈ T, ∃ s, c.path = "/workflow-stages/" ++ s := by
  unfold trackStart
  split
  · rcases env.stageCreate with e | stage
    · exact ⟨[_], rfl, by
        intro c hc
        simp only [List.mem_singleton] at hc
        subst hc
        exact ⟨"", by simp⟩⟩
    · cases stage <;> try
        exact ⟨[_], rfl, by
          intro c hc
          simp only [List.mem_singleton] at hc
          subst hc
          exact ⟨"", by simp⟩⟩
      rcases env.stagePatchA with e | x <;>
        exact ⟨[_, _], rfl, by
          intro c hc
          rcases List.mem_cons.mp hc with h | h
          · subst h; exact ⟨"", by simp⟩
          · simp only [List.mem_singleton] at h
            subst h
            exact ⟨_, rfl⟩⟩
  · exact ⟨[], by simp, by simp⟩

theorem isStageCall_of_stage (c : ApiCall) (h : ∃ s, c.path = "/workflow-stages/" ++ s) :
    isStageCall c = true := by
  obtain ⟨s, hs⟩ := h
  unfold isStageCall
  rw [hs, List.isPrefixOf_iff_prefix]
  have h1 : "/workflow-stages".toList <+: "/workflow-stages/".toList := by decide
  have h2 : ("/workflow-stages/" ++ s).toList = "/workflow-stages/".toList ++ s.toList := by
    simp [String.toList, String.data_append]
  rw [h2]
  exact h1.trans (List.prefix_append _ _)

theorem isStageCall_of_fastmon (c : ApiCall) (h : c.path = "/fastmon-files/") :
    isStageCall c = false := by
  unfold isStageCall
  rw [h]
  decide

theorem isFastmonCall_of_stage (c : ApiCall) (h : ∃ s, c.path = "/workflow-stages/" ++ s) :
    isFastmonCall c = false := by
  obtain ⟨s, hs⟩ := h
  unfold isFastmonCall
  rw [hs, beq_eq_false_iff_ne]
  intro he
  have h2 := congrArg String.length he
  rw [String.length_append] at h2
  have e1 : "/workflow-stages/".length = 17 := rfl
  have e2 : "/fastmon-files/".length = 15 := rfl
  omega

theorem isFastmonCall_of_fastmon (c : ApiCall) (h : c.path = "/fastmon-files/") :
    isFastmonCall c = true := by
  unfold isFastmonCall
  rw [h]
  rfl

theorem trackComplete_sent (env : Env) (stageId : PyVal) (created : Nat)
    (reg : List PyVal) (st : AgentState) :
    (trackComplete env stageId created reg st).sent = st.sent ∧
    (trackComplete env stageId created reg st).total_tf_files_created =
      st.total_tf_files_created ∧
    (trackComplete env stageId created reg st).stf_messages_processed =
      st.stf_messages_processed ∧
    (trackComplete env stageId created reg st).total_stf_messages =
      st.total_stf_messages ∧
    (trackComplete env stageId created reg st).errors = st.errors := by
  unfold trackComplete
  split
  · rcases collectTfNames reg with _ | ns
    · exact ⟨rfl, rfl, rfl, rfl, rfl⟩
    · rcases env.stagePatchB with e | x <;> exact ⟨rfl, rfl, rfl, rfl, rfl⟩
  · exact ⟨rfl, rfl, rfl, rfl, rfl⟩

theorem trackComplete_trace (env : Env) (stageId : PyVal) (created : Nat)
    (reg : List PyVal) (st : AgentState) :
    ∃ T, (trackComplete env stageId created reg st).apiTrace = st.apiTrace ++ T ∧
      ∀ c ∈ T, ∃ s, c.path = "/workflow-stages/" ++ s := by
  unfold trackComplete
  split
  · rcases collectTfNames reg with _ | ns
    · exact ⟨[], by simp, by simp⟩
    · rcases env.stagePatchB with e | x <;>
        exact ⟨[_], rfl, by
          intro c hc
          simp only [List.mem_singleton] at hc
          subst hc
          exact ⟨pyStr stageId ++ "/", by simp [String.append_assoc]⟩⟩
  · exact ⟨[], by simp, by simp⟩

theorem trackStart_off (env : Env) (ag : AgentCtx) (msg : PyDict) (st : AgentState)
    (h : (pyTruthy (dget msg "workflow_id") && env.trackFlag) = false) :
    trackStart env ag msg st = (st, PyVal.none) := by
  simp [trackStart, h]

theorem trackComplete_off (env : Env) (stageId : PyVal) (created : Nat)
    (reg : List PyVal) (st : AgentState) (h : pyTruthy stageId = false) :
    trackComplete env stageId created reg st = st := by
  simp [trackComplete, h]

theorem trackStart_on (env : Env) (ag : AgentCtx) (msg : PyDict) (st : AgentState)
    (sd : PyDict) (pa : PyVal)
    (hw : pyTruthy (dget msg "workflow_id") = true) (hf : env.trackFlag = true)
    (hc : env.stageCreate = Except.ok (PyVal.dict sd))
    (hA : env.stagePatchA = Except.ok pa) :
    trackStart env ag msg st =
      ({ st with apiTrace := st.apiTrace ++
          [{ method := "POST", path := "/workflow-stages/",
             body := PyVal.dict [("workflow", dget msg "workflow_id"),
               ("agent_name", PyVal.str ag.agentName),
               ("agent_type", PyVal.str "fastmon"),
               ("status", PyVal.str "fastmon_received"),
               ("input_message", PyVal.dict msg)] },
           { method := "PATCH",
             path := "/workflow-stages/" ++ pyStr (dget sd "id") ++ "/",
             body := PyVal.dict [("status", PyVal.str "fastmon_processing"),
               ("started_at", PyVal.str env.now)] }] }, dget sd "id") := by
  simp [trackStart, hw, hf, hc, hA]

theorem trackComplete_on (env : Env) (stageId : PyVal) (created : Nat)
    (reg : List PyVal) (st : AgentState) (ns : List PyVal) (pb : PyVal)
    (hs : pyTruthy stageId = true) (hcoll : collectTfNames reg = Option.some ns)
    (hB : env.stagePatchB = Except.ok pb) :
    trackComplete env stageId created reg st =
      { st with apiTrace := st.apiTrace ++
          [{ method := "PATCH", path := "/workflow-stages/" ++ pyStr stageId ++ "/",
             body := PyVal.dict [("status", PyVal.str "fastmon_complete"),
               ("completed_at", PyVal.str env.now),
               ("output_message", PyVal.dict [("tf_files_created", PyVal.int created),
                 ("tf_filenames", PyVal.list ns)])] }] } := by
  simp [trackComplete, hs, hcoll, hB]


theorem registerStep_registered_length (env : Env) (ag : AgentCtx) (msg : PyDict)
    (acc : LoopAcc) (tf : TfMeta) :
    (registerStep env ag msg acc tf).registered.length = acc.registered.length + 1 := by
  rcases hp : env.fastmonPost acc.postIdx with e | r
  · simp [registerStep, record_tf_file, hp, pyTruthy]
  · cases r <;> simp [registerStep, record_tf_file, hp, pyTruthy] <;> split <;> simp

theorem registerLoop_registered_length (env : Env) (ag : AgentCtx) (msg : PyDict) :
    ∀ (tfs : List TfMeta) (acc : LoopAcc),
      (registerLoop env ag msg tfs acc).registered.length =
        acc.registered.length + tfs.length := by
  intro tfs
  induction tfs with
  | nil => intro acc; simp [registerLoop]
  | cons t ts ih =>
    intro acc
    show (registerLoop env ag msg ts (registerStep env ag msg acc t)).registered.length = _
    rw [ih, registerStep_registered_length]
    simp only [List.length_cons]
    omega

/-- C8: TF registrar error containment: when the catalog call fails,
`record_tf_file` returns the empty record and logs exactly one error; on
success (the call returns a record, i.e. a dict) it returns that created
record with no error.  It never raises past its own boundary: for every
response whatsoever it returns either the created record or the empty record
with exactly one error logged — even a malformed non-dict response is
contained — so the registration loop still processes every remaining
descriptor. -/
theorem record_tf_file_error_containment (tf : TfMeta) :
    (∀ e : String, (record_tf_file tf (Except.error e)).1 = PyVal.dict [] ∧
      (record_tf_file tf (Except.error e)).2.2 = 1) ∧
    (∀ d : PyDict, (record_tf_file tf (Except.ok (PyVal.dict d))).1 = PyVal.dict d ∧
      (record_tf_file tf (Except.ok (PyVal.dict d))).2.2 = 0) ∧
    (∀ resp : Except String PyVal,
      (∃ d, (record_tf_file tf resp).1 = PyVal.dict d ∧
        resp = Except.ok (PyVal.dict d) ∧ (record_tf_file tf resp).2.2 = 0) ∨
      ((record_tf_file tf resp).1 = PyVal.dict [] ∧
        (record_tf_file tf resp).2.2 = 1)) ∧
    (∀ (env : Env) (ag : AgentCtx) (msg : PyDict) (tfs : List TfMeta) (acc : LoopAcc),
      (registerLoop env ag msg (tf :: tfs) acc).registered.length =
        acc.registered.length + tfs.length + 1) := by
  refine ⟨fun e => ⟨rfl, rfl⟩, fun d => ⟨rfl, rfl⟩, ?_, fun env ag msg tfs acc => ?_⟩
  · intro resp
    rcases resp with e | r
    · exact Or.inr ⟨rfl, rfl⟩
    · cases r with
      | dict d => exact Or.inl ⟨d, rfl, rfl, rfl⟩
      | none => exact Or.inr ⟨rfl, rfl⟩
      | str s => exact Or.inr ⟨rfl, rfl⟩
      | int n => exact Or.inr ⟨rfl, rfl⟩
      | rat q => exact Or.inr ⟨rfl, rfl⟩
      | bool b => exact Or.inr ⟨rfl, rfl⟩
      | list l => exact Or.inr ⟨rfl, rfl⟩
  · rw [registerLoop_registered_length]
    simp only [List.length_cons]
    omega


/-- C3: for every STF payload with well-typed size and filename fields (the
no-internal-error case), `simulate_tf_subsamples` returns exactly
`tf_files_per_stf` descriptors; the `i`-th has sequence number
`tf_sequence_start + i` (contiguous and strictly increasing), its filename is
the STF base name with the final extension stripped followed by `_tf_`, the
zero-padded sequence number and `.tf`, and it carries the parent STF's
`file_id`. -/
theorem simulate_tf_subsamples_shape (stf_file : PyDict) (cfg : Config)
    (agent_name : String) (g : Nat → ℚ) (n : Nat) (sz : ℚ) (fn : String)
    (hn : cfg.tf_files_per_stf.getD 2 = (n : Int))
    (hsz : pyNumOpt (dgetD stf_file "size_bytes" (PyVal.int 0)) = Option.some sz)
    (hfn : pyStrOpt (dgetD stf_file "filename" (PyVal.str "unknown")) = Option.some fn) :
    (simulate_tf_subsamples stf_file cfg agent_name g).length = n ∧
    (∀ (i : Nat) (h : i < (simulate_tf_subsamples stf_file cfg agent_name g).length),
      ((simulate_tf_subsamples stf_file cfg agent_name g).get ⟨i, h⟩).sequence_number =
        cfg.tf_sequence_start.getD 1 + (i : Int) ∧
      ((simulate_tf_subsamples stf_file cfg agent_name g).get ⟨i, h⟩).tf_filename =
        rsplitExt fn ++ "_tf_" ++ pyFormat03d (cfg.tf_sequence_start.getD 1 + (i : Int)) ++ ".tf" ∧
      ((simulate_tf_subsamples stf_file cfg agent_name g).get ⟨i, h⟩).stf_file_id =
        dget stf_file "file_id") ∧
    (∀ (i j : Nat) (hi : i < (simulate_tf_subsamples stf_file cfg agent_name g).length)
      (hj : j < (simulate_tf_subsamples stf_file cfg agent_name g).length), i < j →
      ((simulate_tf_subsamples stf_file cfg agent_name g).get ⟨i, hi⟩).sequence_number <
      ((simulate_tf_subsamples stf_file cfg agent_name g).get ⟨j, hj⟩).sequence_number) := by
  have hlist : simulate_tf_subsamples stf_file cfg agent_name g =
      (List.range n).map (fun (i : Nat) =>
        ({ tf_filename := rsplitExt fn ++ "_tf_" ++
             pyFormat03d (cfg.tf_sequence_start.getD 1 + (i : Int)) ++ ".tf",
           file_size_bytes := pyInt (sz * cfg.tf_size_fraction.getD (15/100) * g i),
           sequence_number := cfg.tf_sequence_start.getD 1 + (i : Int),
           stf_file_id := dget stf_file "file_id",
           stf_parent := dget stf_file "filename",
           metadata := tfSimMetadata stf_file (cfg.tf_size_fraction.getD (15/100))
             agent_name } : TfMeta)) := by
    unfold simulate_tf_subsamples
    rw [hsz, hfn]
    simp [hn]
  have hget : ∀ (i : Nat) (h : i < (simulate_tf_subsamples stf_file cfg agent_name g).length),
      (simulate_tf_subsamples stf_file cfg agent_name g).get ⟨i, h⟩ =
        { tf_filename := rsplitExt fn ++ "_tf_" ++
            pyFormat03d (cfg.tf_sequence_start.getD 1 + (i : Int)) ++ ".tf"
          file_size_bytes := pyInt (sz * cfg.tf_size_fraction.getD (15/100) * g i)
          sequence_number := cfg.tf_sequence_start.getD 1 + (i : Int)
          stf_file_id := dget stf_file "file_id"
          stf_parent := dget stf_file "filename"
          metadata := tfSimMetadata stf_file (cfg.tf_size_fraction.getD (15/100))
            agent_name } := by
    intro i h
    simp only [List.get_eq_getElem, hlist, List.getElem_map, List.getElem_range]
  refine ⟨by rw [hlist]; simp, ?_, ?_⟩
  · intro i h
    rw [hget i h]
    exact ⟨rfl, rfl, rfl⟩
  · intro i j hi hj hij
    rw [hget i hi, hget j hj]
    simp only
    omega


/-- C3 witness: the simulator shape theorem instantiated on the concrete
`run_42_data.stf` message with three TF files per STF. -/
theorem simulate_tf_subsamples_shape_witness :
    (simulate_tf_subsamples exMsg
      { exCfg with tf_files_per_stf := Option.some 3 } "swf-fastmon-agent"
      (fun _ => 1)).length = 3 :=
  (simulate_tf_subsamples_shape exMsg
    { exCfg with tf_files_per_stf := Option.some 3 } "swf-fastmon-agent"
    (fun _ => 1) 3 ((1000000 : Int) : ℚ) "run_42_data.stf" rfl rfl rfl).1


theorem sample_timeframes_ok (cfg : Config) (ag : AgentCtx) (env : Env)
    (st : AgentState) (msg : PyDict) (fn : String) (sz : ℚ)
    (hfn : dget msg "filename" = PyVal.str fn) (hfne : fn ≠ "")
    (hsz : pyNumOpt (dgetD msg "size_bytes" (PyVal.int 0)) = Option.some sz)
    (hpost : ∀ i, ∃ d, env.fastmonPost i = Except.ok (PyVal.dict d) ∧ d ≠ [])
    (hsend : ∀ i, env.sendOk i = true) :
    (sample_timeframes cfg ag env st msg).2.length =
      (cfg.tf_files_per_stf.getD 2).toNat ∧
    (sample_timeframes cfg ag env st msg).1.total_tf_files_created =
      st.total_tf_files_created + (cfg.tf_files_per_stf.getD 2).toNat ∧
    ((sample_timeframes cfg ag env st msg).1.apiTrace.filter isFastmonCall).length =
      (st.apiTrace.filter isFastmonCall).length +
        (cfg.tf_files_per_stf.getD 2).toNat ∧
    (∃ L, (sample_timeframes cfg ag env st msg).1.sent = st.sent ++ L ∧
      L.length = (cfg.tf_files_per_stf.getD 2).toNat ∧
      ∀ p ∈ L, p.1 = ag.destination ∧
        dget p.2 "msg_type" = PyVal.str "tf_file_registered" ∧
        dget p.2 "run_number" = dget msg "run_id" ∧
        dget p.2 "stf_filename" = dget msg "stf_filename") := by
  have ht : pyTruthy (dget msg "filename") = true := by
    rw [hfn]
    simp [pyTruthy, hfne]
  have hlen : (simulate_tf_subsamples msg cfg ag.agentName env.gauss).length =
      (cfg.tf_files_per_stf.getD 2).toNat :=
    simulate_tf_subsamples_length msg cfg ag.agentName env.gauss sz fn hsz
      (by rw [dgetD_of_dget_str msg "filename" fn _ hfn]; rfl)
  unfold sample_timeframes
  simp only [ht, Bool.not_true, Bool.false_eq_true, if_false]
  rcases hTS : trackStart env ag msg
      { st with stf_messages_processed := st.stf_messages_processed + 1,
                total_stf_messages := st.total_stf_messages + 1,
                last_message_time := Option.some env.now } with ⟨st2, stageId⟩
  dsimp only
  obtain ⟨hS2sent, hS2tot, _, _, _⟩ := trackStart_sent env ag msg
    { st with stf_messages_processed := st.stf_messages_processed + 1,
              total_stf_messages := st.total_stf_messages + 1,
              last_message_time := Option.some env.now }
  obtain ⟨T1, hT1, hT1p⟩ := trackStart_trace env ag msg
    { st with stf_messages_processed := st.stf_messages_processed + 1,
              total_stf_messages := st.total_stf_messages + 1,
              last_message_time := Option.some env.now }
  rw [hTS] at hS2sent hS2tot hT1
  obtain ⟨hc, htc, ⟨L, hL, hLlen, hLp⟩, T, hT2, hTlen, hTp⟩ :=
    registerLoop_ok env ag msg hpost hsend
      (simulate_tf_subsamples msg cfg ag.agentName env.gauss)
      { st := st2, created := 0, registered := [], postIdx := 0, sendIdx := 0 }
  set acc := registerLoop env ag msg
      (simulate_tf_subsamples msg cfg ag.agentName env.gauss)
      { st := st2, created := 0, registered := [], postIdx := 0, sendIdx := 0 }
  obtain ⟨hC4sent, hC4tot, _, _, _⟩ := trackComplete_sent env stageId acc.created
    acc.registered
    { acc.st with total_tf_files_created := acc.st.total_tf_files_created + acc.created }
  obtain ⟨T3, hT3, hT3p⟩ := trackComplete_trace env stageId acc.created acc.registered
    { acc.st with total_tf_files_created := acc.st.total_tf_files_created + acc.created }
  have hreg : acc.registered.length = (cfg.tf_files_per_stf.getD 2).toNat := by
    rw [registerLoop_registered_length]
    simpa using hlen
  refine ⟨hreg, ?_, ?_, ?_⟩
  · rw [hC4tot]
    dsimp only
    rw [htc, hc]
    dsimp only
    rw [hS2tot]
    dsimp only
    rw [hlen]
    omega
  · rw [hT3, hT2, hT1]
    simp only [List.filter_append, List.length_append]
    have e1 : T1.filter isFastmonCall = [] :=
      List.filter_eq_nil_iff.mpr (fun c hc2 => by
        rw [isFastmonCall_of_stage c (hT1p c hc2)]
        exact Bool.false_ne_true)
    have e2 : T.filter isFastmonCall = T :=
      List.filter_eq_self.mpr (fun c hc2 => isFastmonCall_of_fastmon c (hTp c hc2).2)
    have e3 : T3.filter isFastmonCall = [] :=
      List.filter_eq_nil_iff.mpr (fun c hc2 => by
        rw [isFastmonCall_of_stage c (hT3p c hc2)]
        exact Bool.false_ne_true)
    rw [e1, e2, e3]
    simp only [List.length_nil, hTlen, hlen]
    omega
  · refine ⟨L, ?_, by rw [hLlen, hlen], hLp⟩
    rw [hC4sent]
    dsimp only
    rw [hL]
    dsimp only
    rw [hS2sent]

/-- C1: for every inbound `stf_ready` message with a (non-empty, string)
filename and a well-typed size, when every TF catalog registration returns a
non-empty record and every broker publish succeeds, `sample_timeframes`
records exactly `tf_files_per_stf` TF files (that many `/fastmon-files/`
POSTs and that many counted creations) and publishes exactly
`tf_files_per_stf` `tf_file_registered` notifications, each carrying
`run_number` equal to the inbound message's `run_id`. -/
theorem stf_ready_end_to_end (cfg : Config) (ag : AgentCtx) (env : Env)
    (st : AgentState) (msg : PyDict) (n : Nat) (fn : String) (sz : ℚ)
    (hn : cfg.tf_files_per_stf.getD 2 = (n : Int))
    (hfn : dget msg "filename" = PyVal.str fn) (hfne : fn ≠ "")
    (hsz : pyNumOpt (dgetD msg "size_bytes" (PyVal.int 0)) = Option.some sz)
    (hpost : ∀ i, ∃ d, env.fastmonPost i = Except.ok (PyVal.dict d) ∧ d ≠ [])
    (hsend : ∀ i, env.sendOk i = true) :
    (sample_timeframes cfg ag env st msg).2.length = n ∧
    (sample_timeframes cfg ag env st msg).1.total_tf_files_created =
      st.total_tf_files_created + n ∧
    ((sample_timeframes cfg ag env st msg).1.apiTrace.filter isFastmonCall).length =
      (st.apiTrace.filter isFastmonCall).length + n ∧
    (∃ L, (sample_timeframes cfg ag env st msg).1.sent = st.sent ++ L ∧
      L.length = n ∧
      ∀ p ∈ L, dget p.2 "msg_type" = PyVal.str "tf_file_registered" ∧
        dget p.2 "run_number" = dget msg "run_id") := by
  have h := sample_timeframes_ok cfg ag env st msg fn sz hfn hfne hsz hpost hsend
  have hn2 : (cfg.tf_files_per_stf.getD 2).toNat = n := by
    rw [hn]
    simp
  rw [hn2] at h
  obtain ⟨h1, h2, h3, L, hL, hLlen, hLp⟩ := h
  exact ⟨h1, h2, h3, L, hL, hLlen,
    fun p hp => ⟨(hLp p hp).2.1, (hLp p hp).2.2.1⟩⟩

/-- C1 witness: the end-to-end theorem instantiated on the concrete
`run_42_data.stf` message with `tf_files_per_stf = 2` and a cooperative
environment: two TF registrations and two notifications. -/
theorem stf_ready_end_to_end_witness :
    (sample_timeframes exCfg exAgent exEnv exState exMsg).2.length = 2 ∧
    (sample_timeframes exCfg exAgent exEnv exState exMsg).1.total_tf_files_created = 2 := by
  have h := stf_ready_end_to_end exCfg exAgent exEnv exState exMsg 2 "run_42_data.stf"
    ((1000000 : Int) : ℚ) rfl rfl (by decide) rfl
    (fun i => ⟨_, rfl, List.cons_ne_nil _ _⟩) (fun i => rfl)
  exact ⟨h.1, by simpa using h.2.1⟩

/-- C10: when the inbound message carries no truthy filename,
`sample_timeframes` returns the empty list immediately, makes no catalog call
and no broker publish, while the two message counters are still incremented
by exactly one. -/
theorem missing_filename_guard (cfg : Config) (ag : AgentCtx) (env : Env)
    (st : AgentState) (msg : PyDict)
    (h : pyTruthy (dget msg "filename") = false) :
    (sample_timeframes cfg ag env st msg).2 = [] ∧
    (sample_timeframes cfg ag env st msg).1.stf_messages_processed =
      st.stf_messages_processed + 1 ∧
    (sample_timeframes cfg ag env st msg).1.total_stf_messages =
      st.total_stf_messages + 1 ∧
    (sample_timeframes cfg ag env st msg).1.apiTrace = st.apiTrace ∧
    (sample_timeframes cfg ag env st msg).1.sent = st.sent ∧
    (sample_timeframes cfg ag env st msg).1.total_tf_files_created =
      st.total_tf_files_created := by
  unfold sample_timeframes
  simp [h]

/-- C10 witness: the guard theorem instantiated on a message with no filename
field: empty result, counters bumped to one, no requests and no broadcasts. -/
theorem missing_filename_guard_witness :
    (sample_timeframes exCfg exAgent exEnv exState exMsgNoFile).2 = [] ∧
    (sample_timeframes exCfg exAgent exEnv exState exMsgNoFile).1.total_stf_messages = 1 ∧
    (sample_timeframes exCfg exAgent exEnv exState exMsgNoFile).1.apiTrace = [] ∧
    (sample_timeframes exCfg exAgent exEnv exState exMsgNoFile).1.sent = [] := by
  have h := missing_filename_guard exCfg exAgent exEnv exState exMsgNoFile rfl
  exact ⟨h.1, by simpa using h.2.2.1, by simpa [exState] using h.2.2.2.1,
    by simpa [exState] using h.2.2.2.2.1⟩

/-- C4 (code divergence): `create_tf_message` copies the `stf_filename` key of
the dict it is given as STF context, but in the message-driven path
`sample_timeframes` hands it the inbound `stf_ready` message, whose schema
stores the filename under `filename`; consequently every notification
broadcast for the concrete `run_42_data.stf` message carries
`stf_filename = None` even though the parent STF filename is present in the
inbound message. -/
theorem notification_missing_stf_filename :
    dget exMsg "filename" = PyVal.str "run_42_data.stf" ∧
    dget exMsg "stf_filename" = PyVal.none ∧
    (∀ (d msg : PyDict) (agn now : String),
      dget (create_tf_message d msg agn now) "stf_filename" = dget msg "stf_filename") ∧
    (∃ L, (sample_timeframes exCfg exAgent exEnv exState exMsg).1.sent = L ∧
      L.length = 2 ∧ ∀ p ∈ L, dget p.2 "stf_filename" = PyVal.none) := by
  refine ⟨rfl, rfl, fun d msg agn now => rfl, ?_⟩
  have h := sample_timeframes_ok exCfg exAgent exEnv exState exMsg "run_42_data.stf"
    ((1000000 : Int) : ℚ) rfl (by decide) rfl
    (fun i => ⟨_, rfl, List.cons_ne_nil _ _⟩) (fun i => rfl)
  obtain ⟨L, hL, hLlen, hLp⟩ := h.2.2.2
  refine ⟨L, by simpa [exState] using hL, by simpa using hLlen, fun p hp => ?_⟩
  rw [(hLp p hp).2.2.2]
  rfl


/-- C5: for every inbound `stf_ready` event that is processed (truthy
filename), when tracking is enabled, the message carries a truthy
`workflow_id`, and the remote calls succeed (the created stage carries its
id), exactly one `POST /workflow-stages/` with status `fastmon_received` and
exactly two `PATCH`es (to `fastmon_processing` with a start timestamp, then
to `fastmon_complete` with a completion timestamp and output summary) are
issued; when the flag is off or the `workflow_id` is absent, zero
workflow-stage calls are made. -/
theorem workflow_tracking_calls (cfg : Config) (ag : AgentCtx) (env : Env)
    (st : AgentState) (msg : PyDict) :
    (env.trackFlag = true → pyTruthy (dget msg "workflow_id") = true →
      pyTruthy (dget msg "filename") = true →
      ∀ (sd : PyDict) (pa pb : PyVal),
        env.stageCreate = Except.ok (PyVal.dict sd) →
        env.stagePatchA = Except.ok pa → env.stagePatchB = Except.ok pb →
        pyTruthy (dget sd "id") = true →
        (∀ i, ∃ d, env.fastmonPost i = Except.ok (PyVal.dict d)) →
        ∃ b1 p2 b2 p3 b3 created names,
          (sample_timeframes cfg ag env st msg).1.apiTrace.filter isStageCall =
            st.apiTrace.filter isStageCall ++
            [{ method := "POST", path := "/workflow-stages/", body := b1 },
             { method := "PATCH", path := p2, body := b2 },
             { method := "PATCH", path := p3, body := b3 }] ∧
          vget b1 "status" = PyVal.str "fastmon_received" ∧
          vget b2 "status" = PyVal.str "fastmon_processing" ∧
          vget b2 "started_at" = PyVal.str env.now ∧
          vget b3 "status" = PyVal.str "fastmon_complete" ∧
          vget b3 "completed_at" = PyVal.str env.now ∧
          vget b3 "output_message" =
            PyVal.dict [("tf_files_created", PyVal.int created),
                        ("tf_filenames", PyVal.list names)]) ∧
    ((env.trackFlag = false ∨ pyTruthy (dget msg "workflow_id") = false) →
      (sample_timeframes cfg ag env st msg).1.apiTrace.filter isStageCall =
        st.apiTrace.filter isStageCall) := by
  constructor
  · intro hflag hwf hfile sd pa pb hC hA hB hsid hpost
    unfold sample_timeframes
    simp only [hfile, Bool.not_true, Bool.false_eq_true, if_false]
    rw [trackStart_on env ag msg _ sd pa hwf hflag hC hA]
    dsimp only
    set st1 : AgentState :=
      { st with stf_messages_processed := st.stf_messages_processed + 1,
                total_stf_messages := st.total_stf_messages + 1,
                last_message_time := Option.some env.now } with hst1
    set st2 : AgentState :=
      { st1 with apiTrace := st1.apiTrace ++
          [{ method := "POST", path := "/workflow-stages/",
             body := PyVal.dict [("workflow", dget msg "workflow_id"),
               ("agent_name", PyVal.str ag.agentName),
               ("agent_type", PyVal.str "fastmon"),
               ("status", PyVal.str "fastmon_received"),
               ("input_message", PyVal.dict msg)] },
           { method := "PATCH",
             path := "/workflow-stages/" ++ pyStr (dget sd "id") ++ "/",
             body := PyVal.dict [("status", PyVal.str "fastmon_processing"),
               ("started_at", PyVal.str env.now)] }] } with hst2
    set acc := registerLoop env ag msg
      (simulate_tf_subsamples msg cfg ag.agentName env.gauss)
      { st := st2, created := 0, registered := [], postIdx := 0, sendIdx := 0 } with hacc
    obtain ⟨T, hT, hTp⟩ := registerLoop_trace env ag msg
      (simulate_tf_subsamples msg cfg ag.agentName env.gauss)
      { st := st2, created := 0, registered := [], postIdx := 0, sendIdx := 0 }
    have hdicts : ∀ v ∈ acc.registered, ∃ d, v = PyVal.dict d :=
      registerLoop_registered_dicts env ag msg hpost _ _ (by simp)
    obtain ⟨ns, hns⟩ := collectTfNames_of_dicts acc.registered hdicts
    rw [trackComplete_on env (dget sd "id") acc.created acc.registered _ ns pb hsid hns hB]
    dsimp only
    refine ⟨PyVal.dict [("workflow", dget msg "workflow_id"),
        ("agent_name", PyVal.str ag.agentName), ("agent_type", PyVal.str "fastmon"),
        ("status", PyVal.str "fastmon_received"), ("input_message", PyVal.dict msg)],
      "/workflow-stages/" ++ pyStr (dget sd "id") ++ "/",
      PyVal.dict [("status", PyVal.str "fastmon_processing"),
        ("started_at", PyVal.str env.now)],
      "/workflow-stages/" ++ pyStr (dget sd "id") ++ "/",
      PyVal.dict [("status", PyVal.str "fastmon_complete"),
        ("completed_at", PyVal.str env.now),
        ("output_message", PyVal.dict [("tf_files_created", PyVal.int acc.created),
          ("tf_filenames", PyVal.list ns)])],
      acc.created, ns, ?_, rfl, rfl, rfl, rfl, rfl, rfl⟩
    rw [hT]
    dsimp only
    simp only [List.filter_append]
    have e0 : T.filter isStageCall = [] :=
      List.filter_eq_nil_iff.mpr (fun c hc2 => by
        rw [isStageCall_of_fastmon c (hTp c hc2).2]
        exact Bool.false_ne_true)
    have e1 : ∀ b : PyVal, isStageCall
        { method := "POST", path := "/workflow-stages/", body := b } = true :=
      fun b => isStageCall_of_stage _ ⟨"", by simp⟩
    have e2 : ∀ (m : String) (b : PyVal), isStageCall
        { method := m, path := "/workflow-stages/" ++ pyStr (dget sd "id") ++ "/",
          body := b } = true :=
      fun m b => isStageCall_of_stage _
        ⟨pyStr (dget sd "id") ++ "/", by simp [String.append_assoc]⟩
    simp [List.filter_cons, e0, e1, e2]
  · intro hoff
    rcases hfile : pyTruthy (dget msg "filename") with hf | ht
    · unfold sample_timeframes
      simp [hfile]
    · unfold sample_timeframes
      simp only [hfile, Bool.not_true, Bool.false_eq_true, if_false]
      have hcond : (pyTruthy (dget msg "workflow_id") && env.trackFlag) = false := by
        rcases hoff with h | h <;> simp [h]
      rw [trackStart_off env ag msg _ hcond]
      dsimp only
      set st1 : AgentState :=
        { st with stf_messages_processed := st.stf_messages_processed + 1,
                  total_stf_messages := st.total_stf_messages + 1,
                  last_message_time := Option.some env.now } with hst1
      set acc := registerLoop env ag msg
        (simulate_tf_subsamples msg cfg ag.agentName env.gauss)
        { st := st1, created := 0, registered := [], postIdx := 0, sendIdx := 0 } with hacc
      obtain ⟨T, hT, hTp⟩ := registerLoop_trace env ag msg
        (simulate_tf_subsamples msg cfg ag.agentName env.gauss)
        { st := st1, created := 0, registered := [], postIdx := 0, sendIdx := 0 }
      rw [trackComplete_off env PyVal.none acc.created acc.registered _ rfl]
      dsimp only
      rw [hT]
      dsimp only
      simp only [List.filter_append]
      have e0 : T.filter isStageCall = [] :=
        List.filter_eq_nil_iff.mpr (fun c hc2 => by
          rw [isStageCall_of_fastmon c (hTp c hc2).2]
          exact Bool.false_ne_true)
      simp [e0]

theorem workflow_tracking_calls_witness :
    ((sample_timeframes exCfg exAgent exEnvTrack exState exMsgWf).1.apiTrace.filter
      isStageCall).length = 3 ∧
    (sample_timeframes exCfg exAgent exEnv exState exMsg).1.apiTrace.filter
      isStageCall = [] := by
  constructor
  · obtain ⟨b1, p2, b2, p3, b3, c, ns, heq, _⟩ :=
      (workflow_tracking_calls exCfg exAgent exEnvTrack exState exMsgWf).1
        rfl (by decide) (by decide) [("id", PyVal.int 7)] (PyVal.dict []) (PyVal.dict [])
        rfl rfl rfl (by decide) (fun i => ⟨_, rfl⟩)
    rw [heq]
    simp [exState]
  · have h := (workflow_tracking_calls exCfg exAgent exEnv exState exMsg).2 (Or.inl rfl)
    rw [h]
    simp [exState]

/-- C6: `get_or_create_run` returns the first record of the lookup when the
response is a paginated dict with a non-empty `results` list or a bare
non-empty list, performing no creation; when the lookup yields no record it
issues `POST /runs/` whose body has `start_time = now` and an `auto_created`
conditions map and returns the API's new run; lookup or creation errors
propagate to the caller unchanged. -/
theorem get_or_create_run_resolution (n : Int) (now : String) :
    (∀ (cr : Except String PyVal) (d : PyDict) (r : PyVal) (rest : List PyVal),
      dget d "results" = PyVal.list (r :: rest) →
      get_or_create_run n (Except.ok (PyVal.dict d)) cr now =
        Except.ok (r, [⟨"get", "/runs/?run_number=" ++ toString n, PyVal.none⟩])) ∧
    (∀ (cr : Except String PyVal) (r : PyVal) (rest : List PyVal),
      get_or_create_run n (Except.ok (PyVal.list (r :: rest))) cr now =
        Except.ok (r, [⟨"get", "/runs/?run_number=" ++ toString n, PyVal.none⟩])) ∧
    (∀ (d : PyDict) (newRun : PyVal), dget d "results" = PyVal.list [] →
      get_or_create_run n (Except.ok (PyVal.dict d)) (Except.ok newRun) now =
        Except.ok (newRun,
          [⟨"get", "/runs/?run_number=" ++ toString n, PyVal.none⟩,
           ⟨"post", "/runs/", PyVal.dict [("run_number", PyVal.int n),
              ("start_time", PyVal.str now),
              ("run_conditions", PyVal.dict [("auto_created", PyVal.bool true)])]⟩])) ∧
    (∀ (newRun : PyVal),
      get_or_create_run n (Except.ok (PyVal.list [])) (Except.ok newRun) now =
        Except.ok (newRun,
          [⟨"get", "/runs/?run_number=" ++ toString n, PyVal.none⟩,
           ⟨"post", "/runs/", PyVal.dict [("run_number", PyVal.int n),
              ("start_time", PyVal.str now),
              ("run_conditions", PyVal.dict [("auto_created", PyVal.bool true)])]⟩])) ∧
    (∀ (cr : Except String PyVal) (e : String),
      get_or_create_run n (Except.error e) cr now = Except.error e) ∧
    (∀ (d : PyDict) (newRun : PyVal), dget d "results" = PyVal.none →
      get_or_create_run n (Except.ok (PyVal.dict d)) (Except.ok newRun) now =
        Except.ok (newRun,
          [⟨"get", "/runs/?run_number=" ++ toString n, PyVal.none⟩,
           ⟨"post", "/runs/", PyVal.dict [("run_number", PyVal.int n),
              ("start_time", PyVal.str now),
              ("run_conditions", PyVal.dict [("auto_created", PyVal.bool true)])]⟩])) ∧
    (∀ (d : PyDict) (e : String), dget d "results" = PyVal.list [] →
      get_or_create_run n (Except.ok (PyVal.dict d)) (Except.error e) now =
        Except.error e) := by
  refine ⟨?_, fun cr r rest => rfl, ?_, fun newRun => rfl, fun cr e => rfl, ?_, ?_⟩
  · intro cr d r rest h
    simp [get_or_create_run, h]
  · intro d newRun h
    simp [get_or_create_run, h]
  · intro d newRun h
    simp [get_or_create_run, h, pyTruthy]
  · intro d e h
    simp [get_or_create_run, h]

theorem chunksOfSuccAux_foldl (k : Nat) :
    ∀ (fuel : Nat) (l : List Nat), l.length ≤ fuel →
      ∀ acc, (chunksOfSuccAux k fuel l).foldl md5Update acc = acc ++ l := by
  intro fuel
  induction fuel with
  | zero =>
    intro l hl acc
    have : l = [] := List.length_eq_zero.mp (Nat.le_zero.mp hl)
    subst this
    simp [chunksOfSuccAux]
  | succ fuel ih =>
    intro l hl acc
    cases l with
    | nil => simp [chunksOfSuccAux]
    | cons a as =>
      show (chunksOfSuccAux k fuel ((a :: as).drop (k + 1))).foldl md5Update
          (md5Update acc ((a :: as).take (k + 1))) = acc ++ (a :: as)
      rw [ih _ (by simp [List.length_drop] at hl ⊢; omega)]
      unfold md5Update
      rw [List.append_assoc, List.take_append_drop]

theorem calculate_checksum_ok (bs : List Nat) :
    calculate_checksum (Except.ok bs) = (md5Hex bs, 0) := by
  show (md5Hex ((readChunks bs).foldl md5Update []), 0) = (md5Hex bs, 0)
  unfold readChunks chunksOfSucc
  rw [chunksOfSuccAux_foldl 4095 bs.length bs (le_refl _) []]
  rfl

theorem get_or_create_run_resolution_witness :
    get_or_create_run 42
      (Except.ok (PyVal.dict [("results", PyVal.list [PyVal.dict [("run_id", PyVal.int 9)]])]))
      (Except.error "unused") "T" =
      Except.ok (PyVal.dict [("run_id", PyVal.int 9)],
        [⟨"get", "/runs/?run_number=" ++ toString (42 : Int), PyVal.none⟩]) ∧
    get_or_create_run 42 (Except.error "boom") (Except.ok (PyVal.dict [])) "T" =
      Except.error "boom" ∧
    get_or_create_run 42 (Except.ok (PyVal.list [])) (Except.ok (PyVal.dict [("run_id", PyVal.int 77)])) "T" =
      Except.ok (PyVal.dict [("run_id", PyVal.int 77)],
        [⟨"get", "/runs/?run_number=" ++ toString (42 : Int), PyVal.none⟩,
         ⟨"post", "/runs/", PyVal.dict [("run_number", PyVal.int 42),
            ("start_time", PyVal.str "T"),
            ("run_conditions", PyVal.dict [("auto_created", PyVal.bool true)])]⟩]) := by
  refine ⟨(get_or_create_run_resolution 42 "T").1 _ _ _ _ rfl,
    (get_or_create_run_resolution 42 "T").2.2.2.2.1 _ _,
    (get_or_create_run_resolution 42 "T").2.2.2.1 _⟩

set_option maxRecDepth 10000 in
/-- C9: `calculate_checksum` streamed over fixed 4096-byte chunks returns the
MD5 hex digest of the entire byte content (equal to the digest of the whole
sequence, anchored on the external reference digest of `"abc"`); on a read
error it logs one error and returns the empty string without raising, and
`record_stf_file` then proceeds to register the STF with an empty checksum
in the POSTed body. -/
theorem checksum_streaming_and_degradation :
    (∀ bs : List Nat, calculate_checksum (Except.ok bs) = (md5Hex bs, 0)) ∧
    (∀ e : String, calculate_checksum (Except.error e) = ("", 1)) ∧
    md5Hex [97, 98, 99] = "900150983cd24fb0d6963f7d28e17f72" ∧
    (∀ (filePath fname absPath : String) (szb : Int) (ct mt e now : String)
      (cfg : Config) (runRec stf rid fid : PyVal) (cr : Except String PyVal),
      cfg.calculate_checksum = Option.some true →
      dictIndex runRec "run_id" = Option.some rid →
      dictIndex stf "file_id" = Option.some fid →
      ∃ calls,
        record_stf_file filePath fname absPath szb ct mt (Except.error e) cfg
          (Except.ok (PyVal.list [runRec])) cr (Except.ok stf) now =
          Except.ok (stf, calls, 1) ∧
        ∃ c ∈ calls, c.path = "/stf-files/" ∧ vget c.body "checksum" = PyVal.str "") := by
  refine ⟨calculate_checksum_ok, fun e => rfl, by decide, ?_⟩
  intro filePath fname absPath szb ct mt e now cfg runRec stf rid fid cr hck hrid hfid
  unfold record_stf_file
  have hrun : get_or_create_run (extract_run_number fname cfg.default_run_number)
      (Except.ok (PyVal.list [runRec])) cr now =
      Except.ok (runRec, [⟨"get", "/runs/?run_number=" ++
        toString (extract_run_number fname cfg.default_run_number), PyVal.none⟩]) := rfl
  dsimp only
  rw [hrun]
  dsimp only
  rw [hrid, hck]
  dsimp only
  rw [hfid]
  refine ⟨_, rfl, ?_⟩
  refine ⟨_, List.mem_append_right _ (List.mem_singleton_self _), rfl, ?_⟩
  rfl

theorem checksum_streaming_and_degradation_witness :
    calculate_checksum (Except.ok [97, 98, 99]) =
      ("900150983cd24fb0d6963f7d28e17f72", 0) ∧
    (∃ calls,
      record_stf_file "/data/run_7.stf" "run_7.stf" "/data/run_7.stf" 9 "c" "m"
        (Except.error "read error") exCfg
        (Except.ok (PyVal.list [PyVal.dict [("run_id", PyVal.int 1)]]))
        (Except.error "unused")
        (Except.ok (PyVal.dict [("file_id", PyVal.str "u")])) "T" =
        Except.ok (PyVal.dict [("file_id", PyVal.str "u")], calls, 1) ∧
      ∃ c ∈ calls, c.path = "/stf-files/" ∧ vget c.body "checksum" = PyVal.str "") := by
  constructor
  · rw [checksum_streaming_and_degradation.1 [97, 98, 99],
      checksum_streaming_and_degradation.2.2.1]
  · exact checksum_streaming_and_degradation.2.2.2 "/data/run_7.stf" "run_7.stf"
      "/data/run_7.stf" 9 "c" "m" "read error" "T" exCfg
      (PyVal.dict [("run_id", PyVal.int 1)]) (PyVal.dict [("file_id", PyVal.str "u")])
      (PyVal.int 1) (PyVal.str "u") (Except.error "unused") rfl rfl rfl
